import Mathlib

/-!
# Verification of the a2a-rust task engine against its specification

Shallow embedding of the parts of the `a2a-rust` repository that the
specification's claims are about:

* the data model (`Message`, `Task`, `TaskState`, events) — the files
  `core_types.rs` / `models.rs` are declared in `a2a/mod.rs` but absent from
  the source tree, so their passive field layout is modelled from the spec
  (§3) and from how the present source files construct and inspect them;
* `new_task`, `completed_task`, `apply_history_length`
  (`src/a2a/utils/task.rs`);
* `RequestContext::new` and its `check_or_generate_task_id` /
  `check_or_generate_context_id` helpers
  (`src/a2a/server/agent_execution/context.rs`), together with a model of
  `uuid::Uuid::parse_str` / `Uuid::to_string` which the task-id branch calls;
* the `MockAgentExecutor` and `EchoAgentExecutor`
  (`src/a2a/server/agent_execution/agent_executor.rs`) over a
  spec-modelled event queue;
* a spec-modelled task store (`task_store.rs` is declared in
  `a2a/server/tasks/mod.rs` but absent from the tree).

Machine identifiers are modelled as `String` (Rust compares them via
`to_string()` on both sides).  The pluggable `IDGenerator` trait is modelled
as a pure function `IDGeneratorContext → String`; both generators shipped in
`id_generator.rs` (`UUIDGenerator`, `SequentialIDGenerator`) never return an
error, so the fallible `Result` in the trait signature degenerates to a total
function.
-/

namespace A2A

/-! ## Data model (core_types.rs / models.rs, modelled from the spec) -/

/-- Modelled from the spec: `Role` of a message; `core_types.rs` is absent
from the tree.  The code under `src/` only distinguishes `Agent` from the
rest (cf. `new_task`), and the tests use `User` and `Agent`. -/
inductive Role where
  | User
  | Agent
deriving DecidableEq, Repr

/-- Modelled from the spec: a text-bearing message part
(`TextPart` in `core_types.rs`). -/
structure TextPart where
  text : String
deriving DecidableEq, Repr

/-- Modelled from the spec: the tagged union behind `Part::root()`.
The code under `src/` only ever matches the `Text` alternative; the other
part kinds of the wire contract are collapsed into `File` and `Data`. -/
inductive PartRoot where
  | Text (t : TextPart)
  | File
  | Data
deriving DecidableEq, Repr

/-- Modelled from the spec: a message part; `part.root()` exposes the
union. -/
structure Part where
  root : PartRoot
deriving DecidableEq, Repr

/-- `Part::text`, as used by the source and its tests. -/
def Part.text (s : String) : Part :=
  { root := PartRoot.Text { text := s } }

/-- Modelled from the spec: protocol `Message` (`core_types.rs`).  Only the
fields the verified code inspects are modelled: `role`, `parts`, and the
embedded `task_id` / `context_id` identifiers (§3: the engine inspects
"task/context identifiers" of the wire contract). -/
structure Message where
  role : Role
  parts : List Part
  task_id : Option String
  context_id : Option String
deriving DecidableEq, Repr

/-- `Message::new(role, parts)` — a fresh message carries no task or context
id. -/
def Message.new (role : Role) (parts : List Part) : Message :=
  { role := role, parts := parts, task_id := none, context_id := none }

/-- `Message::with_task_id`. -/
def Message.with_task_id (m : Message) (id : String) : Message :=
  { m with task_id := some id }

/-- `Message::with_context_id`. -/
def Message.with_context_id (m : Message) (id : String) : Message :=
  { m with context_id := some id }

/-- Modelled from the spec: `MessageSendConfiguration` is part of the wire
contract and never inspected by the verified code; it is modelled as an
inert record. -/
structure MessageSendConfiguration where
deriving DecidableEq, Repr

/-- Modelled from the spec: the metadata JSON map attached to requests and
tasks, never inspected by the verified code; modelled as a key/value list. -/
abbrev Metadata := List (String × String)

/-- `MessageSendParams` (`core_types.rs`, modelled from the spec): the
inbound request payload, a message plus optional configuration and
metadata. -/
structure MessageSendParams where
  message : Message
  configuration : Option MessageSendConfiguration
  metadata : Option Metadata
deriving DecidableEq, Repr

/-- `TaskState` (§3): ordered enumeration of task lifecycle states. -/
inductive TaskState where
  | Submitted
  | Working
  | InputRequired
  | Completed
  | Canceled
  | Failed
  | Rejected
  | AuthRequired
  | Unknown
deriving DecidableEq, Repr

/-- §3: `Completed`, `Canceled`, `Failed`, `Rejected` are terminal. -/
def TaskState.is_terminal : TaskState → Bool
  | .Completed => true
  | .Canceled => true
  | .Failed => true
  | .Rejected => true
  | _ => false

/-- `TaskStatus` (modelled from the spec §3: state + optional status message
+ timestamp; timestamps are strings, cf. `chrono::Utc::now().to_string()` in
`agent_executor.rs`). -/
structure TaskStatus where
  state : TaskState
  message : Option Message
  timestamp : Option String
deriving DecidableEq, Repr

/-- `TaskStatus::new(state)` (modelled from the spec; `models.rs` absent):
a bare status with the given state. -/
def TaskStatus.new (state : TaskState) : TaskStatus :=
  { state := state, message := none, timestamp := none }

/-- Modelled from the spec: an output artifact (§3, "ordered sequence of
named output bundles"); only its presence matters to the verified code. -/
structure Artifact where
  parts : List Part
deriving DecidableEq, Repr

/-- `Task` (modelled from the spec §3 and the constructions in
`context.rs` / `task.rs` tests): identity, status, optional artifacts,
optional history, metadata, and the wire `kind` tag.  The `id` and
`context_id` are strings; `context.rs` stores them as UUIDs but every
comparison in the verified code goes through `to_string()`. -/
structure Task where
  id : String
  context_id : String
  status : TaskStatus
  artifacts : Option (List Artifact)
  history : Option (List Message)
  metadata : Option Metadata
  kind : String
deriving DecidableEq, Repr

/-- `Task::new(context_id, status)` (modelled from the spec; `models.rs`
absent): builder used by `new_task` / `completed_task`, later refined by
`with_task_id` / `with_history` / `with_artifacts`. -/
def Task.new (context_id : String) (status : TaskStatus) : Task :=
  { id := "", context_id := context_id, status := status,
    artifacts := none, history := none, metadata := none, kind := "task" }

/-- `Task::with_task_id` builder (modelled from the spec; cf. the
`test_new_task_with_ids` test asserting `task.id == "task-123"`). -/
def Task.with_task_id (t : Task) (id : String) : Task :=
  { t with id := id }

/-- `Task::with_history` builder (modelled from the spec; cf. the tests in
`utils/task.rs`). -/
def Task.with_history (t : Task) (history : List Message) : Task :=
  { t with history := some history }

/-- `Task::with_artifacts` builder (modelled from the spec). -/
def Task.with_artifacts (t : Task) (artifacts : List Artifact) : Task :=
  { t with artifacts := some artifacts }

/-! ## Errors (`src/a2a/error.rs`) -/

/-- `A2AError` (`error.rs`): the discriminated union of protocol errors,
restricted to the variants the verified code produces.  Each variant of the
Rust enum wraps a payload struct carrying a fixed numeric code and a
message; only the message varies, so each variant is modelled as carrying
its message string (`A2AError::invalid_params(msg)` ↦
`A2AError.invalidParams msg`, code −32602; `A2AError::internal(msg)` ↦
`A2AError.internalError msg`, code −32603). -/
inductive A2AError where
  | invalidParams (message : String)
  | internalError (message : String)
  | taskNotFound (message : String)
  | taskNotCancelable (message : String)
deriving DecidableEq, Repr

/-! ## Model of `uuid::Uuid::parse_str` / `Uuid::to_string`

`RequestContext::new` calls
`uuid::Uuid::parse_str(task_id)?.to_string()` when it stamps an explicit
task id onto a message that carries none.  A UUID is modelled as its list
of 32 nibble values; `uuidParse?` models `Uuid::parse_str`
(accepting the crate's four textual forms: simple 32-hex, hyphenated
8-4-4-4-12, braced hyphenated, and `urn:uuid:`-prefixed hyphenated, hex
digits case-insensitive) and `uuidToString` models `Uuid::to_string`
(canonical lowercase hyphenated form). -/

/-- Value of a hexadecimal digit character, or `none`. -/
def hexVal? (c : Char) : Option Nat :=
  if '0' ≤ c ∧ c ≤ '9' then some (c.toNat - '0'.toNat)
  else if 'a' ≤ c ∧ c ≤ 'f' then some (c.toNat - 'a'.toNat + 10)
  else if 'A' ≤ c ∧ c ≤ 'F' then some (c.toNat - 'A'.toNat + 10)
  else none

/-- Read exactly `n` hex digits, returning their values and the rest. -/
def takeHex : Nat → List Char → Option (List Nat × List Char)
  | 0, cs => some ([], cs)
  | _ + 1, [] => none
  | n + 1, c :: cs =>
      match hexVal? c with
      | none => none
      | some v =>
          match takeHex n cs with
          | none => none
          | some (vs, rest) => some (v :: vs, rest)

/-- Expect a `-` separator. -/
def expectDash : List Char → Option (List Char)
  | '-' :: cs => some cs
  | _ => none

/-- Parse the hyphenated `8-4-4-4-12` form into 32 nibbles. -/
def parseHyphenated (cs : List Char) : Option (List Nat) := do
  let (g1, cs) ← takeHex 8 cs
  let cs ← expectDash cs
  let (g2, cs) ← takeHex 4 cs
  let cs ← expectDash cs
  let (g3, cs) ← takeHex 4 cs
  let cs ← expectDash cs
  let (g4, cs) ← takeHex 4 cs
  let cs ← expectDash cs
  let (g5, cs) ← takeHex 12 cs
  if cs = [] then pure (g1 ++ g2 ++ g3 ++ g4 ++ g5) else none

/-- Parse the simple 32-hex-digit form into 32 nibbles. -/
def parseSimple (cs : List Char) : Option (List Nat) := do
  let (g, cs) ← takeHex 32 cs
  if cs = [] then pure g else none

/-- Model of `uuid::Uuid::parse_str`, dispatching on the input length the
way the `uuid` crate does: 32 → simple, 36 → hyphenated, 38 → braced
hyphenated, 45 → URN-prefixed hyphenated. -/
def uuidParse? (s : String) : Option (List Nat) :=
  let cs := s.data
  if cs.length = 32 then parseSimple cs
  else if cs.length = 36 then parseHyphenated cs
  else if cs.length = 38 then
    match cs with
    | '{' :: rest =>
        if rest.getLast? = some '}' then parseHyphenated rest.dropLast else none
    | _ => none
  else if cs.length = 45 then
    if cs.take 9 = "urn:uuid:".data then parseHyphenated (cs.drop 9) else none
  else none

/-- Lowercase hex digit character for a nibble value. -/
def hexChar (n : Nat) : Char :=
  if n < 10 then Char.ofNat ('0'.toNat + n) else Char.ofNat ('a'.toNat + n - 10)

/-- Model of `uuid::Uuid::to_string`: canonical lowercase hyphenated
rendering of 32 nibbles. -/
def uuidToString (nibbles : List Nat) : String :=
  let h := nibbles.map hexChar
  String.mk (h.take 8 ++ '-' ::
    ((h.drop 8).take 4 ++ '-' ::
      ((h.drop 12).take 4 ++ '-' ::
        ((h.drop 16).take 4 ++ '-' :: h.drop 20))))

/-! ## `src/a2a/utils/task.rs` -/

/-- `new_task(request)` (`utils/task.rs` lines 15–49): validates the message
(role must not be `Agent`, parts non-empty, no empty text part) and builds a
`Submitted` task whose history is the request message.  The two
`Uuid::new_v4().to_string()` calls are modelled by the parameters
`freshTaskId` / `freshContextId`; they are consulted only when the message
carries no corresponding id. -/
def new_task (request : Message) (freshTaskId freshContextId : String) :
    Except A2AError Task :=
  if request.role = Role.Agent then
    Except.error (A2AError.invalidParams "Message role cannot be Agent for new task")
  else if request.parts.isEmpty then
    Except.error (A2AError.invalidParams "Message parts cannot be empty")
  else if request.parts.any (fun p =>
      match p.root with
      | PartRoot.Text tp => tp.text = ""
      | _ => false) then
    Except.error (A2AError.invalidParams "TextPart content cannot be empty")
  else
    let task_id := request.task_id.getD freshTaskId
    let context_id := request.context_id.getD freshContextId
    Except.ok (((Task.new context_id
      (TaskStatus.new TaskState.Submitted)).with_task_id task_id).with_history
        [request])

/-- `apply_history_length(task, history_length)` (`utils/task.rs` lines
81–108): when the length is positive and a non-empty history is present,
keep only the most recent `length` messages
(`history.iter().rev().take(length).rev()`); otherwise return the task
unchanged.  `history_length` is `Option<i32>`, modelled as `Option Int`. -/
def apply_history_length (task : Task) (history_length : Option Int) : Task :=
  match history_length with
  | some length =>
      if length > 0 then
        match task.history with
        | some history =>
            if ¬ history.isEmpty then
              let limited_history := (history.reverse.take length.toNat).reverse
              { task with history := some limited_history }
            else task
        | none => task
      else task
  | none => task

/-! ## `src/a2a/server/id_generator.rs` -/

/-- `IDGeneratorContext` (`id_generator.rs`): optional sibling identifiers
handed to an `IDGenerator` as a correlation hint. -/
structure IDGeneratorContext where
  task_id : Option String
  context_id : Option String
deriving DecidableEq, Repr

/-- `IDGeneratorContext::with_task_id`. -/
def IDGeneratorContext.with_task_id (task_id : String) : IDGeneratorContext :=
  { task_id := some task_id, context_id := none }

/-- `IDGeneratorContext.with_context_id`. -/
def IDGeneratorContext.with_context_id (context_id : String) : IDGeneratorContext :=
  { task_id := none, context_id := some context_id }

/-- The `IDGenerator` trait, modelled as a pure function: both
implementations shipped in `id_generator.rs` are infallible, so
`generate(&self, ctx) -> Result<String, A2AError>` degenerates to
`IDGeneratorContext → String`. -/
abbrev IDGen := IDGeneratorContext → String

/-! ## `src/a2a/server/agent_execution/context.rs` -/

/-- `RequestContext` (`context.rs` lines 18–42): the inbound payload, the
explicitly supplied identifiers, the task snapshot loaded from the store,
and related tasks.  The `call_context` and the two generator handles carried
by the Rust struct play no role in the verified construction logic and are
not part of the record (the generators are passed to `RequestContext.new`
as function arguments). -/
structure RequestContext where
  request : Option MessageSendParams
  task_id : Option String
  context_id : Option String
  current_task : Option Task
  related_tasks : List Task
deriving DecidableEq, Repr

/-- `RequestContext::check_or_generate_task_id` (`context.rs` lines
209–228): with a request present, if neither the context's `task_id` nor
the message carries an id, generate one (hint: the context id resolved so
far, or `""`), stamp it on the message and record it; otherwise adopt the
message's embedded id if there is one. -/
def check_or_generate_task_id (gen : IDGen) (ctx : RequestContext) :
    RequestContext :=
  match ctx.request with
  | none => ctx
  | some params =>
      if ctx.task_id.isNone ∧ params.message.task_id.isNone then
        let id_context := IDGeneratorContext.with_context_id (ctx.context_id.getD "")
        let generated_id := gen id_context
        { ctx with
          request := some { params with
            message := { params.message with task_id := some generated_id } },
          task_id := some generated_id }
      else
        match params.message.task_id with
        | some task_id => { ctx with task_id := some task_id }
        | none => ctx

/-- `RequestContext::check_or_generate_context_id` (`context.rs` lines
231–250): the context-id counterpart; the generation hint is the task id
resolved so far (or `""`). -/
def check_or_generate_context_id (gen : IDGen) (ctx : RequestContext) :
    RequestContext :=
  match ctx.request with
  | none => ctx
  | some params =>
      if ctx.context_id.isNone ∧ params.message.context_id.isNone then
        let id_context := IDGeneratorContext.with_task_id (ctx.task_id.getD "")
        let generated_id := gen id_context
        { ctx with
          request := some { params with
            message := { params.message with context_id := some generated_id } },
          context_id := some generated_id }
      else
        match params.message.context_id with
        | some context_id => { ctx with context_id := some context_id }
        | none => ctx

/-- `context.rs` lines 84–93 (the block headed "Set task_id on the
message"): with an explicit id, reject a differing embedded id; if the
message carries none, stamp the canonical form of the explicit id onto the
message, which must parse as a UUID
(`uuid::Uuid::parse_str(task_id)?.to_string()`). -/
def stamp_task_id (task_id : String) (ctx : RequestContext) :
    Except A2AError RequestContext :=
  match ctx.request with
  | none => Except.ok ctx
  | some params =>
      match params.message.task_id with
      | some message =>
          if message ≠ task_id then
            Except.error (A2AError.invalidParams "bad task id")
          else Except.ok ctx
      | none =>
          match uuidParse? task_id with
          | none =>
              Except.error (A2AError.invalidParams "invalid task id format")
          | some u =>
              Except.ok { ctx with
                request := some { params with
                  message := { params.message with
                    task_id := some (uuidToString u) } } }

/-- `context.rs` lines 96–100 ("Validate against current task if
present"): an explicit task id must equal the current task's id. -/
def validate_task_against_current (task_id : String) (ctx : RequestContext) :
    Except A2AError RequestContext :=
  match ctx.current_task with
  | some current_task =>
      if current_task.id ≠ task_id then
        Except.error (A2AError.invalidParams "bad task id")
      else Except.ok ctx
  | none => Except.ok ctx

/-- Task-id step of `RequestContext::new` (`context.rs` lines 82–104):
with an explicit id, stamp then validate; with no explicit id, defer to
`check_or_generate_task_id`. -/
def resolve_task_id (gen : IDGen) (explicit : Option String)
    (ctx : RequestContext) : Except A2AError RequestContext :=
  match explicit with
  | some task_id =>
      (stamp_task_id task_id ctx).bind (validate_task_against_current task_id)
  | none => Except.ok (check_or_generate_task_id gen ctx)

/-- `context.rs` lines 108–117 ("Set context_id on the message"): as
`stamp_task_id` but with no UUID-format requirement — an explicit context
id is stamped verbatim (`params.message.context_id = Some(context_id.clone())`). -/
def stamp_context_id (context_id : String) (ctx : RequestContext) :
    Except A2AError RequestContext :=
  match ctx.request with
  | none => Except.ok ctx
  | some params =>
      match params.message.context_id with
      | some message =>
          if message ≠ context_id then
            Except.error (A2AError.invalidParams "bad context id")
          else Except.ok ctx
      | none =>
          Except.ok { ctx with
            request := some { params with
              message := { params.message with
                context_id := some context_id } } }

/-- `context.rs` lines 120–124: an explicit context id must equal the
current task's context id. -/
def validate_context_against_current (context_id : String)
    (ctx : RequestContext) : Except A2AError RequestContext :=
  match ctx.current_task with
  | some current_task =>
      if current_task.context_id ≠ context_id then
        Except.error (A2AError.invalidParams "bad context id")
      else Except.ok ctx
  | none => Except.ok ctx

/-- Context-id step of `RequestContext::new` (`context.rs` lines 106–127). -/
def resolve_context_id (gen : IDGen) (explicit : Option String)
    (ctx : RequestContext) : Except A2AError RequestContext :=
  match explicit with
  | some context_id =>
      (stamp_context_id context_id ctx).bind
        (validate_context_against_current context_id)
  | none => Except.ok (check_or_generate_context_id gen ctx)

/-- `RequestContext::new` (`context.rs` lines 56–132): build the context
record, then — only when a request payload is present — run the task-id
step followed by the context-id step. -/
def RequestContext.new (request : Option MessageSendParams)
    (task_id context_id : Option String) (task : Option Task)
    (related_tasks : Option (List Task))
    (task_id_generator context_id_generator : IDGen) :
    Except A2AError RequestContext :=
  let ctx : RequestContext :=
    { request := request, task_id := task_id, context_id := context_id,
      current_task := task, related_tasks := related_tasks.getD [] }
  match ctx.request with
  | none => Except.ok ctx
  | some _ =>
      (resolve_task_id task_id_generator task_id ctx).bind fun ctx₁ =>
        resolve_context_id context_id_generator context_id ctx₁

/-- `RequestContext::extract_text_from_message` (`context.rs` lines
253–263): the texts of all text-bearing parts, joined by the delimiter. -/
def extract_text_from_message (message : Message) (delimiter : String) :
    String :=
  let text_parts := message.parts.filterMap (fun part =>
    match part.root with
    | PartRoot.Text text_part => some text_part.text
    | _ => none)
  String.intercalate delimiter text_parts

/-- `RequestContext::get_user_input` (`context.rs` lines 143–149). -/
def RequestContext.get_user_input (ctx : RequestContext) (delimiter : String) :
    String :=
  match ctx.request with
  | some params => extract_text_from_message params.message delimiter
  | none => ""

/-- `RequestContext::attach_related_task` (`context.rs` lines 158–160). -/
def RequestContext.attach_related_task (ctx : RequestContext) (task : Task) :
    RequestContext :=
  { ctx with related_tasks := ctx.related_tasks ++ [task] }

/-! ## Events and the event queue

`event_queue.rs` / `in_memory_queue.rs` are declared in
`a2a/server/events/mod.rs` but absent from the tree; the `Event` union and
the queue are modelled from the spec (§3, §4.1).  The executors under
verification only ever call `enqueue_event`. -/

/-- `TaskStatusUpdateEvent`, as constructed field-by-field in
`agent_executor.rs`: identifiers, a status, the `final` flag (a raw
identifier `r#final` in Rust), the wire `kind` tag and metadata. -/
structure TaskStatusUpdateEvent where
  task_id : String
  context_id : String
  status : TaskStatus
  final : Bool
  kind : String
  metadata : Option Metadata
deriving DecidableEq, Repr

/-- Modelled from the spec: a task-artifact update event (§3); only its
presence in the union matters to the claims. -/
structure TaskArtifactUpdateEvent where
  task_id : String
  context_id : String
  artifact : Artifact
deriving DecidableEq, Repr

/-- Modelled from the spec: the `Event` tagged union (§3) —
`{TaskStatusUpdate, TaskArtifactUpdate, Message}`; `agent_executor.rs`
constructs the `TaskStatusUpdate` and `Message` alternatives. -/
inductive Event where
  | TaskStatusUpdate (e : TaskStatusUpdateEvent)
  | TaskArtifactUpdate (e : TaskArtifactUpdateEvent)
  | Message (m : Message)
deriving DecidableEq, Repr

/-- Modelled from the spec: the state of one task's event queue (§3 — "an
ordered sequence of events plus a closed flag"); taps are irrelevant to the
claims settled here. -/
structure EventQueueState where
  events : List Event
  closed : Bool
deriving DecidableEq, Repr

/-- Modelled from the spec (§4.1): `enqueue(event)` appends to the tail;
"fails with `Closed` if called after closure".  The executors propagate the
failure with `?`. -/
def enqueue_event (q : EventQueueState) (e : Event) :
    Except A2AError EventQueueState :=
  if q.closed then Except.error (A2AError.internalError "Queue is closed")
  else Except.ok { q with events := q.events ++ [e] }

/-! ## `src/a2a/server/agent_execution/agent_executor.rs` -/

/-- `MockAgentExecutor` (`agent_executor.rs` lines 60–68). -/
structure MockAgentExecutor where
  simulate_error : Bool
  simulate_delay : Bool
  delay_ms : Nat
deriving DecidableEq, Repr

/-- `MockAgentExecutor::new` (`agent_executor.rs` lines 72–78). -/
def MockAgentExecutor.new : MockAgentExecutor :=
  { simulate_error := false, simulate_delay := false, delay_ms := 100 }

/-- `MockAgentExecutor::execute` (`agent_executor.rs` lines 102–166):
optionally error out, otherwise enqueue a non-final `Working` status update
followed by a final `Completed` one, both carrying the context's task and
context ids (defaulting to `"unknown"`).  The two
`chrono::Utc::now().to_string()` timestamps are the parameters `now1` /
`now2`; the `tokio::time::sleep` calls and the unused `user_input` binding
have no observable effect on the queue. -/
def MockAgentExecutor.execute (ex : MockAgentExecutor) (ctx : RequestContext)
    (now1 now2 : String) (q : EventQueueState) :
    Except A2AError EventQueueState :=
  if ex.simulate_error then
    Except.error (A2AError.internalError "Mock agent execution error")
  else
    let task_id := ctx.task_id.getD "unknown"
    let context_id := ctx.context_id.getD "unknown"
    let initial_status : TaskStatusUpdateEvent :=
      { task_id := task_id, context_id := context_id,
        status := { state := TaskState.Working, timestamp := some now1,
                    message := none },
        final := false, kind := "status-update", metadata := none }
    (enqueue_event q (Event.TaskStatusUpdate initial_status)).bind fun q =>
      let final_status : TaskStatusUpdateEvent :=
        { task_id := task_id, context_id := context_id,
          status := { state := TaskState.Completed, timestamp := some now2,
                      message := none },
          final := true, kind := "status-update", metadata := none }
      (enqueue_event q (Event.TaskStatusUpdate final_status)).bind fun q =>
        Except.ok q

/-- `MockAgentExecutor::cancel` (`agent_executor.rs` lines 168–196):
enqueue a single final `Canceled` status update. -/
def MockAgentExecutor.cancel (ctx : RequestContext) (now : String)
    (q : EventQueueState) : Except A2AError EventQueueState :=
  let task_id := ctx.task_id.getD "unknown"
  let context_id := ctx.context_id.getD "unknown"
  let cancel_status : TaskStatusUpdateEvent :=
    { task_id := task_id, context_id := context_id,
      status := { state := TaskState.Canceled, timestamp := some now,
                  message := none },
      final := true, kind := "status-update", metadata := none }
  (enqueue_event q (Event.TaskStatusUpdate cancel_status)).bind fun q =>
    Except.ok q

/-- `EchoAgentExecutor` (`agent_executor.rs` lines 200–204).  Its single
field is `prefix` in Rust; `prefix` is a Lean keyword, hence the name
`prefix_text` here. -/
structure EchoAgentExecutor where
  prefix_text : String
deriving DecidableEq, Repr

/-- `EchoAgentExecutor::new` (`agent_executor.rs` lines 208–212). -/
def EchoAgentExecutor.new : EchoAgentExecutor :=
  { prefix_text := "Echo: " }

/-- `EchoAgentExecutor::execute` (`agent_executor.rs` lines 228–285):
enqueue a non-final `Working` status update, then a `Message` event echoing
the user input behind the prefix, then a final `Completed` status update. -/
def EchoAgentExecutor.execute (ex : EchoAgentExecutor) (ctx : RequestContext)
    (now1 now2 : String) (q : EventQueueState) :
    Except A2AError EventQueueState :=
  let task_id := ctx.task_id.getD "unknown"
  let context_id := ctx.context_id.getD "unknown"
  let user_input := ctx.get_user_input " "
  let echoed_response := ex.prefix_text ++ user_input
  let initial_status : TaskStatusUpdateEvent :=
    { task_id := task_id, context_id := context_id,
      status := { state := TaskState.Working, timestamp := some now1,
                  message := none },
      final := false, kind := "status-update", metadata := none }
  (enqueue_event q (Event.TaskStatusUpdate initial_status)).bind fun q =>
    let echo_message := Message.new Role.Agent [Part.text echoed_response]
    (enqueue_event q (Event.Message echo_message)).bind fun q =>
      let final_status : TaskStatusUpdateEvent :=
        { task_id := task_id, context_id := context_id,
          status := { state := TaskState.Completed, timestamp := some now2,
                      message := none },
          final := true, kind := "status-update", metadata := none }
      (enqueue_event q (Event.TaskStatusUpdate final_status)).bind fun q =>
        Except.ok q

/-- `EchoAgentExecutor::cancel` (`agent_executor.rs` lines 287–315):
identical to the mock's cancel — a single final `Canceled` update. -/
def EchoAgentExecutor.cancel (ctx : RequestContext) (now : String)
    (q : EventQueueState) : Except A2AError EventQueueState :=
  let task_id := ctx.task_id.getD "unknown"
  let context_id := ctx.context_id.getD "unknown"
  let cancel_status : TaskStatusUpdateEvent :=
    { task_id := task_id, context_id := context_id,
      status := { state := TaskState.Canceled, timestamp := some now,
                  message := none },
      final := true, kind := "status-update", metadata := none }
  (enqueue_event q (Event.TaskStatusUpdate cancel_status)).bind fun q =>
    Except.ok q

/-! ## Task store

`task_store.rs` is declared in `a2a/server/tasks/mod.rs` but absent from
the tree; the store is modelled from the spec (§4.3): a map from task id to
task snapshot with `create` / `get` / `apply_status`, the last being the
only status mutator and rejecting transitions out of a terminal state. -/

/-- Modelled from the spec: store-level error conditions of §4.3 / §7
(`AlreadyExists` on `create`, `NotFound` on `get`, and the rejection of a
transition out of a terminal state). -/
inductive StoreError where
  | AlreadyExists
  | NotFound
  | TerminalState
deriving DecidableEq, Repr

/-- Modelled from the spec: the task store, a map of task identifier to
Task snapshot (§2), as an association list. -/
abbrev TaskStore := List (String × Task)

/-- Modelled from the spec: `get(task_id)` returns the current snapshot. -/
def TaskStore.get (store : TaskStore) (task_id : String) : Option Task :=
  (store.find? (fun p => p.1 = task_id)).map Prod.snd

/-- Modelled from the spec: `create(task)` fails with `AlreadyExists` if
the id is taken (§4.3). -/
def TaskStore.create (store : TaskStore) (task : Task) :
    Except StoreError TaskStore :=
  match store.get task.id with
  | some _ => Except.error StoreError.AlreadyExists
  | none => Except.ok (store ++ [(task.id, task)])

/-- Modelled from the spec: `apply_status(task_id, status)`, the only
status mutator; it "must reject transitions out of a terminal state"
(§4.3) and fails with `NotFound` for an unknown id (§7). -/
def TaskStore.apply_status (store : TaskStore) (task_id : String)
    (status : TaskStatus) : Except StoreError TaskStore :=
  match store.get task_id with
  | none => Except.error StoreError.NotFound
  | some task =>
      if task.status.state.is_terminal then
        Except.error StoreError.TerminalState
      else
        Except.ok (store.map (fun p =>
          if p.1 = task_id then (p.1, { p.2 with status := status }) else p))

/-! ## Concrete sample inputs (shared by witnesses and counterexamples) -/

/-- A plain user message with one non-empty text part, no embedded ids. -/
def sampleMsg : Message := Message.new Role.User [Part.text "Hello"]

/-- An agent message used to populate histories. -/
def msgY : Message := Message.new Role.Agent [Part.text "y"]

/-- A request payload around `sampleMsg` (no embedded ids). -/
def sampleParams : MessageSendParams :=
  { message := sampleMsg, configuration := none, metadata := none }

/-- A payload whose message embeds `task_id = "A"` and `context_id = "CA"`. -/
def mismatchParams : MessageSendParams :=
  { message := { sampleMsg with task_id := some "A", context_id := some "CA" },
    configuration := none, metadata := none }

/-- A task with a three-message history. -/
def sampleHistTask : Task :=
  (Task.new "ctx-1" (TaskStatus.new TaskState.Working)).with_history
    [sampleMsg, msgY, sampleMsg]

/-- A deterministic generator stand-in. -/
def sampleGen : IDGen := fun _ => "generated-id"

/-- The nil UUID in canonical textual form. -/
def zeroUuid : String := "00000000-0000-0000-0000-000000000000"

/-- A stored task with `id = "A"`. -/
def sampleTaskA : Task :=
  (Task.new "ctx-A" (TaskStatus.new TaskState.Working)).with_task_id "A"

/-- A stored task whose id is the nil UUID and whose context id is `"c0"`. -/
def sampleTaskZ : Task :=
  (Task.new "c0" (TaskStatus.new TaskState.Working)).with_task_id zeroUuid

/-! ## General lemmas -/

/-- The last `n` elements via double reversal are a `drop`. -/
theorem takeLast_eq_drop {α : Type} (l : List α) (n : Nat) :
    (l.reverse.take n).reverse = l.drop (l.length - n) := by
  rw [← List.rtake_eq_reverse_take_reverse]
  rfl

/-- `apply_history_length` with a positive bound truncates the history (if
any) to its last `length` entries and touches nothing else. -/
theorem apply_history_length_pos (task : Task) (k : Int) (hk : 0 < k) :
    apply_history_length task (some k)
      = { task with history :=
            task.history.map (fun h => h.drop (h.length - k.toNat)) } := by
  obtain ⟨id, cid, st, art, hist, md, kd⟩ := task
  cases hist with
  | none => simp [apply_history_length, hk]
  | some l =>
      by_cases hl : l.isEmpty
      · have hnil : l = [] := List.isEmpty_iff.mp hl
        subst hnil
        simp [apply_history_length, hk]
      · simp [apply_history_length, hk, hl, takeLast_eq_drop]

/-- `apply_history_length` with a non-positive bound is the identity. -/
theorem apply_history_length_nonpos (task : Task) (k : Int) (hk : k ≤ 0) :
    apply_history_length task (some k) = task := by
  simp only [apply_history_length]
  rw [if_neg (by omega)]

/-- A successful `stamp_task_id` changes at most the message's `task_id`:
identifiers, current task, related tasks, the message's `context_id` and
the presence of a request all survive. -/
theorem stamp_task_id_ok_preserves (task_id : String) (ctx ctx' : RequestContext)
    (h : stamp_task_id task_id ctx = Except.ok ctx') :
    ctx'.task_id = ctx.task_id ∧ ctx'.context_id = ctx.context_id
    ∧ ctx'.current_task = ctx.current_task
    ∧ ctx'.related_tasks = ctx.related_tasks
    ∧ ctx'.request.map (fun p => p.message.context_id)
        = ctx.request.map (fun p => p.message.context_id)
    ∧ ctx'.request.isSome = ctx.request.isSome := by
  unfold stamp_task_id at h
  split at h
  next hreq =>
    simp only [Except.ok.injEq] at h
    subst h
    exact ⟨rfl, rfl, rfl, rfl, rfl, rfl⟩
  next params hreq =>
    split at h
    next m hmid =>
      split at h
      · simp at h
      · simp only [Except.ok.injEq] at h
        subst h
        exact ⟨rfl, rfl, rfl, rfl, rfl, rfl⟩
    next hmid =>
      split at h
      next hu => simp at h
      next u hu =>
        simp only [Except.ok.injEq] at h
        subst h
        exact ⟨rfl, rfl, rfl, rfl, by simp [hreq], by simp [hreq]⟩

/-- Every failure of `stamp_task_id` is an `InvalidParams`. -/
theorem stamp_task_id_error_invalidParams (task_id : String)
    (ctx : RequestContext) (e : A2AError)
    (h : stamp_task_id task_id ctx = Except.error e) :
    ∃ s, e = A2AError.invalidParams s := by
  unfold stamp_task_id at h
  split at h
  next hreq => simp at h
  next params hreq =>
    split at h
    next m hmid =>
      split at h
      · simp only [Except.error.injEq] at h
        exact ⟨_, h.symm⟩
      · simp at h
    next hmid =>
      split at h
      next hu =>
        simp only [Except.error.injEq] at h
        exact ⟨_, h.symm⟩
      next u hu => simp at h

/-- A successful current-task validation is the identity and certifies the
id match. -/
theorem validate_task_ok (task_id : String) (ctx ctx' : RequestContext)
    (h : validate_task_against_current task_id ctx = Except.ok ctx') :
    ctx' = ctx ∧ (∀ t, ctx.current_task = some t → t.id = task_id) := by
  unfold validate_task_against_current at h
  split at h
  next t hcur =>
    split at h
    next hne => simp at h
    next hne =>
      simp only [Except.ok.injEq] at h
      subst h
      refine ⟨rfl, ?_⟩
      rintro t' ht'
      rw [hcur] at ht'
      cases ht'
      simpa using hne
  next hcur =>
    simp only [Except.ok.injEq] at h
    subst h
    exact ⟨rfl, by simp [hcur]⟩

/-- Every failure of the current-task validation is an `InvalidParams`. -/
theorem validate_task_error_invalidParams (task_id : String)
    (ctx : RequestContext) (e : A2AError)
    (h : validate_task_against_current task_id ctx = Except.error e) :
    ∃ s, e = A2AError.invalidParams s := by
  unfold validate_task_against_current at h
  split at h
  next t hcur =>
    split at h
    next hne =>
      simp only [Except.error.injEq] at h
      exact ⟨_, h.symm⟩
    next hne => simp at h
  next hcur => simp at h

/-- `check_or_generate_task_id` changes at most the task id and the
message's `task_id` field. -/
theorem check_or_generate_task_id_preserves (gen : IDGen)
    (ctx : RequestContext) :
    (check_or_generate_task_id gen ctx).context_id = ctx.context_id
    ∧ (check_or_generate_task_id gen ctx).current_task = ctx.current_task
    ∧ (check_or_generate_task_id gen ctx).related_tasks = ctx.related_tasks
    ∧ (check_or_generate_task_id gen ctx).request.map
        (fun p => p.message.context_id)
        = ctx.request.map (fun p => p.message.context_id)
    ∧ (check_or_generate_task_id gen ctx).request.isSome
        = ctx.request.isSome := by
  unfold check_or_generate_task_id
  split
  next hreq => exact ⟨rfl, rfl, rfl, rfl, rfl⟩
  next params hreq =>
    split
    next hcond => exact ⟨rfl, rfl, rfl, by simp [hreq], by simp [hreq]⟩
    next hcond =>
      split
      next m hmid => exact ⟨rfl, rfl, rfl, by simp [hreq], by simp [hreq]⟩
      next hmid => exact ⟨rfl, rfl, rfl, rfl, rfl⟩

/-- A successful task-id step preserves the context id, the current task,
the related tasks, the message's `context_id` and the presence of a
request. -/
theorem resolve_task_id_ok_preserves (gen : IDGen) (explicit : Option String)
    (ctx ctx' : RequestContext)
    (h : resolve_task_id gen explicit ctx = Except.ok ctx') :
    ctx'.context_id = ctx.context_id
    ∧ ctx'.current_task = ctx.current_task
    ∧ ctx'.related_tasks = ctx.related_tasks
    ∧ ctx'.request.map (fun p => p.message.context_id)
        = ctx.request.map (fun p => p.message.context_id)
    ∧ ctx'.request.isSome = ctx.request.isSome := by
  unfold resolve_task_id at h
  split at h
  next tid =>
    cases hst : stamp_task_id tid ctx with
    | error e => rw [hst] at h; simp [Except.bind] at h
    | ok ctx₁ =>
        rw [hst] at h
        simp only [Except.bind] at h
        obtain ⟨hval, -⟩ := validate_task_ok tid ctx₁ ctx' h
        subst hval
        obtain ⟨-, h2, h3, h4, h5, h6⟩ :=
          stamp_task_id_ok_preserves tid ctx ctx' hst
        exact ⟨h2, h3, h4, h5, h6⟩
  next =>
    simp only [Except.ok.injEq] at h
    subst h
    exact (check_or_generate_task_id_preserves gen ctx)

/-- Every failure of the task-id step is an `InvalidParams`. -/
theorem resolve_task_id_error_invalidParams (gen : IDGen)
    (explicit : Option String) (ctx : RequestContext) (e : A2AError)
    (h : resolve_task_id gen explicit ctx = Except.error e) :
    ∃ s, e = A2AError.invalidParams s := by
  unfold resolve_task_id at h
  split at h
  next tid =>
    cases hst : stamp_task_id tid ctx with
    | error e' =>
        rw [hst] at h
        simp only [Except.bind, Except.error.injEq] at h
        subst h
        exact stamp_task_id_error_invalidParams tid ctx e' hst
    | ok ctx₁ =>
        rw [hst] at h
        simp only [Except.bind] at h
        exact validate_task_error_invalidParams tid ctx₁ e h
  next => simp at h

/-- A successful `stamp_context_id` changes at most the message's
`context_id`. -/
theorem stamp_context_id_ok_preserves (context_id : String)
    (ctx ctx' : RequestContext)
    (h : stamp_context_id context_id ctx = Except.ok ctx') :
    ctx'.task_id = ctx.task_id ∧ ctx'.context_id = ctx.context_id
    ∧ ctx'.current_task = ctx.current_task
    ∧ ctx'.related_tasks = ctx.related_tasks
    ∧ ctx'.request.map (fun p => p.message.task_id)
        = ctx.request.map (fun p => p.message.task_id)
    ∧ ctx'.request.isSome = ctx.request.isSome := by
  unfold stamp_context_id at h
  split at h
  next hreq =>
    simp only [Except.ok.injEq] at h
    subst h
    exact ⟨rfl, rfl, rfl, rfl, rfl, rfl⟩
  next params hreq =>
    split at h
    next m hmid =>
      split at h
      · simp at h
      · simp only [Except.ok.injEq] at h
        subst h
        exact ⟨rfl, rfl, rfl, rfl, rfl, rfl⟩
    next hmid =>
      simp only [Except.ok.injEq] at h
      subst h
      exact ⟨rfl, rfl, rfl, rfl, by simp [hreq], by simp [hreq]⟩

/-- Every failure of `stamp_context_id` is an `InvalidParams`. -/
theorem stamp_context_id_error_invalidParams (context_id : String)
    (ctx : RequestContext) (e : A2AError)
    (h : stamp_context_id context_id ctx = Except.error e) :
    ∃ s, e = A2AError.invalidParams s := by
  unfold stamp_context_id at h
  split at h
  next hreq => simp at h
  next params hreq =>
    split at h
    next m hmid =>
      split at h
      · simp only [Except.error.injEq] at h
        exact ⟨_, h.symm⟩
      · simp at h
    next hmid => simp at h

/-- A successful current-task context validation is the identity and
certifies the context-id match. -/
theorem validate_context_ok (context_id : String) (ctx ctx' : RequestContext)
    (h : validate_context_against_current context_id ctx = Except.ok ctx') :
    ctx' = ctx ∧ (∀ t, ctx.current_task = some t → t.context_id = context_id) := by
  unfold validate_context_against_current at h
  split at h
  next t hcur =>
    split at h
    next hne => simp at h
    next hne =>
      simp only [Except.ok.injEq] at h
      subst h
      refine ⟨rfl, ?_⟩
      rintro t' ht'
      rw [hcur] at ht'
      cases ht'
      simpa using hne
  next hcur =>
    simp only [Except.ok.injEq] at h
    subst h
    exact ⟨rfl, by simp [hcur]⟩

/-- Every failure of the current-task context validation is an
`InvalidParams`. -/
theorem validate_context_error_invalidParams (context_id : String)
    (ctx : RequestContext) (e : A2AError)
    (h : validate_context_against_current context_id ctx = Except.error e) :
    ∃ s, e = A2AError.invalidParams s := by
  unfold validate_context_against_current at h
  split at h
  next t hcur =>
    split at h
    next hne =>
      simp only [Except.error.injEq] at h
      exact ⟨_, h.symm⟩
    next hne => simp at h
  next hcur => simp at h

/-- `check_or_generate_context_id` changes at most the context id and the
message's `context_id` field. -/
theorem check_or_generate_context_id_preserves (gen : IDGen)
    (ctx : RequestContext) :
    (check_or_generate_context_id gen ctx).task_id = ctx.task_id
    ∧ (check_or_generate_context_id gen ctx).current_task = ctx.current_task
    ∧ (check_or_generate_context_id gen ctx).related_tasks = ctx.related_tasks
    ∧ (check_or_generate_context_id gen ctx).request.map
        (fun p => p.message.task_id)
        = ctx.request.map (fun p => p.message.task_id)
    ∧ (check_or_generate_context_id gen ctx).request.isSome
        = ctx.request.isSome := by
  unfold check_or_generate_context_id
  split
  next hreq => exact ⟨rfl, rfl, rfl, rfl, rfl⟩
  next params hreq =>
    split
    next hcond => exact ⟨rfl, rfl, rfl, by simp [hreq], by simp [hreq]⟩
    next hcond =>
      split
      next m hmid => exact ⟨rfl, rfl, rfl, by simp [hreq], by simp [hreq]⟩
      next hmid => exact ⟨rfl, rfl, rfl, rfl, rfl⟩

/-- A successful context-id step preserves the task id, the current task,
the related tasks, the message's `task_id` and the presence of a
request. -/
theorem resolve_context_id_ok_preserves (gen : IDGen)
    (explicit : Option String) (ctx ctx' : RequestContext)
    (h : resolve_context_id gen explicit ctx = Except.ok ctx') :
    ctx'.task_id = ctx.task_id
    ∧ ctx'.current_task = ctx.current_task
    ∧ ctx'.related_tasks = ctx.related_tasks
    ∧ ctx'.request.map (fun p => p.message.task_id)
        = ctx.request.map (fun p => p.message.task_id)
    ∧ ctx'.request.isSome = ctx.request.isSome := by
  unfold resolve_context_id at h
  split at h
  next cid =>
    cases hst : stamp_context_id cid ctx with
    | error e => rw [hst] at h; simp [Except.bind] at h
    | ok ctx₁ =>
        rw [hst] at h
        simp only [Except.bind] at h
        obtain ⟨hval, -⟩ := validate_context_ok cid ctx₁ ctx' h
        subst hval
        obtain ⟨h1, -, h3, h4, h5, h6⟩ :=
          stamp_context_id_ok_preserves cid ctx ctx' hst
        exact ⟨h1, h3, h4, h5, h6⟩
  next =>
    simp only [Except.ok.injEq] at h
    subst h
    exact (check_or_generate_context_id_preserves gen ctx)

/-- Every failure of the context-id step is an `InvalidParams`. -/
theorem resolve_context_id_error_invalidParams (gen : IDGen)
    (explicit : Option String) (ctx : RequestContext) (e : A2AError)
    (h : resolve_context_id gen explicit ctx = Except.error e) :
    ∃ s, e = A2AError.invalidParams s := by
  unfold resolve_context_id at h
  split at h
  next cid =>
    cases hst : stamp_context_id cid ctx with
    | error e' =>
        rw [hst] at h
        simp only [Except.bind, Except.error.injEq] at h
        subst h
        exact stamp_context_id_error_invalidParams cid ctx e' hst
    | ok ctx₁ =>
        rw [hst] at h
        simp only [Except.bind] at h
        exact validate_context_error_invalidParams cid ctx₁ e h
  next => simp at h

/-- When no task id is available from the context or the message,
`check_or_generate_task_id` generates one and stamps it on the message. -/
theorem check_or_generate_task_id_generates (gen : IDGen)
    (ctx : RequestContext) (params : MessageSendParams)
    (hreq : ctx.request = some params) (ht : ctx.task_id = none)
    (hm : params.message.task_id = none) :
    (check_or_generate_task_id gen ctx).task_id
        = some (gen (IDGeneratorContext.with_context_id (ctx.context_id.getD "")))
    ∧ (check_or_generate_task_id gen ctx).request.map
        (fun q => q.message.task_id)
        = some (some (gen
            (IDGeneratorContext.with_context_id (ctx.context_id.getD "")))) := by
  unfold check_or_generate_task_id
  simp [hreq, ht, hm]

/-- When the message embeds a task id, `check_or_generate_task_id` adopts
it. -/
theorem check_or_generate_task_id_adopts (gen : IDGen) (ctx : RequestContext)
    (params : MessageSendParams) (m : String)
    (hreq : ctx.request = some params)
    (hm : params.message.task_id = some m) :
    (check_or_generate_task_id gen ctx).task_id = some m := by
  unfold check_or_generate_task_id
  simp [hreq, hm]

/-- When no context id is available from the context or the message,
`check_or_generate_context_id` generates one and stamps it on the
message. -/
theorem check_or_generate_context_id_generates (gen : IDGen)
    (ctx : RequestContext) (params : MessageSendParams)
    (hreq : ctx.request = some params) (hc : ctx.context_id = none)
    (hm : params.message.context_id = none) :
    (check_or_generate_context_id gen ctx).context_id
        = some (gen (IDGeneratorContext.with_task_id (ctx.task_id.getD "")))
    ∧ (check_or_generate_context_id gen ctx).request.map
        (fun q => q.message.context_id)
        = some (some (gen
            (IDGeneratorContext.with_task_id (ctx.task_id.getD "")))) := by
  unfold check_or_generate_context_id
  simp [hreq, hc, hm]

/-- When the message embeds a context id, `check_or_generate_context_id`
adopts it. -/
theorem check_or_generate_context_id_adopts (gen : IDGen)
    (ctx : RequestContext) (params : MessageSendParams) (m : String)
    (hreq : ctx.request = some params)
    (hm : params.message.context_id = some m) :
    (check_or_generate_context_id gen ctx).context_id = some m := by
  unfold check_or_generate_context_id
  simp [hreq, hm]

/-! ## Claims -/

/-- C4: for every task and history-length argument, `apply_history_length`
returns the task with its history truncated to the last `n` entries when
`n > 0` (histories no longer than `n`, absent or empty come back whole) and
every other field unchanged, and returns the task entirely unchanged when
`n ≤ 0` or `n` is absent. -/
theorem C4_apply_history_length (task : Task) (n : Option Int) :
    (∀ k : Int, n = some k → 0 < k →
        apply_history_length task n
          = { task with history :=
                task.history.map (fun h => h.drop (h.length - k.toNat)) })
    ∧ (n = none → apply_history_length task n = task)
    ∧ (∀ k : Int, n = some k → k ≤ 0 → apply_history_length task n = task) := by
  refine ⟨?_, ?_, ?_⟩
  · rintro k rfl hk
    exact apply_history_length_pos task k hk
  · rintro rfl
    rfl
  · rintro k rfl hk
    exact apply_history_length_nonpos task k hk

/-- Witness for C4 at a three-message history and `n = 2` / `n` absent. -/
theorem C4_apply_history_length_witness :
    apply_history_length sampleHistTask (some 2)
      = { sampleHistTask with history :=
            (sampleHistTask.history.map (fun h => h.drop (h.length - (2 : Int).toNat))) }
    ∧ apply_history_length sampleHistTask none = sampleHistTask :=
  ⟨(C4_apply_history_length sampleHistTask (some 2)).1 2 rfl (by decide),
   (C4_apply_history_length sampleHistTask none).2.1 rfl⟩

/-- C5: `apply_history_length` is idempotent for every bound, and is a
no-op at `some 0` and at `none`. -/
theorem C5_apply_history_length_idempotent (task : Task) (n : Option Int) :
    apply_history_length (apply_history_length task n) n
        = apply_history_length task n
    ∧ apply_history_length task (some 0) = task
    ∧ apply_history_length task none = task := by
  refine ⟨?_, apply_history_length_nonpos task 0 le_rfl, rfl⟩
  cases n with
  | none => rfl
  | some k =>
      by_cases hk : 0 < k
      · rw [apply_history_length_pos task k hk,
            apply_history_length_pos _ k hk]
        obtain ⟨id, cid, st, art, hist, md, kd⟩ := task
        cases hist with
        | none => simp
        | some h =>
            simp
            congr 1
            omega
      · rw [apply_history_length_nonpos task k (by omega),
            apply_history_length_nonpos task k (by omega)]

/-- C7: every task accepted by `new_task` is `Submitted`, carries exactly
the request message as history, and takes its ids from the message when
embedded there (fresh ids only otherwise). -/
theorem C7_new_task_shape (m : Message) (fT fC : String) (t : Task)
    (h : new_task m fT fC = Except.ok t) :
    t.status.state = TaskState.Submitted
    ∧ t.history = some [m]
    ∧ t.id = m.task_id.getD fT
    ∧ t.context_id = m.context_id.getD fC
    ∧ (∀ i, m.task_id = some i → t.id = i)
    ∧ (∀ i, m.context_id = some i → t.context_id = i) := by
  unfold new_task at h
  split_ifs at h
  simp only [Except.ok.injEq] at h
  subst h
  refine ⟨rfl, rfl, rfl, rfl, ?_, ?_⟩
  · rintro i hi
    simp [Task.with_history, Task.with_task_id, Task.new, hi]
  · rintro i hi
    simp [Task.with_history, Task.with_task_id, Task.new, hi]

/-- Witness for C7 at a message embedding both ids. -/
theorem C7_new_task_shape_witness :
    (((Task.new "ctx-456"
        (TaskStatus.new TaskState.Submitted)).with_task_id
          "task-123").with_history
            [(sampleMsg.with_task_id "task-123").with_context_id "ctx-456"]).id
      = "task-123" ∧
    (((Task.new "ctx-456"
        (TaskStatus.new TaskState.Submitted)).with_task_id
          "task-123").with_history
            [(sampleMsg.with_task_id "task-123").with_context_id "ctx-456"]).status.state
      = TaskState.Submitted :=
  ⟨((C7_new_task_shape
      ((sampleMsg.with_task_id "task-123").with_context_id "ctx-456")
      "f1" "f2" _ rfl).2.2.2.2.1 "task-123" rfl),
   (C7_new_task_shape
      ((sampleMsg.with_task_id "task-123").with_context_id "ctx-456")
      "f1" "f2" _ rfl).1⟩

/-- C10: `new_task` rejects with `InvalidParams` exactly when the role is
`Agent`, the parts list is empty, or some text part is empty; it succeeds
on every other message. -/
theorem C10_new_task_rejects_iff (m : Message) (fT fC : String) :
    ((∃ s, new_task m fT fC = Except.error (A2AError.invalidParams s)) ↔
      (m.role = Role.Agent ∨ m.parts = [] ∨
        ∃ p ∈ m.parts, ∃ tp, p.root = PartRoot.Text tp ∧ tp.text = ""))
    ∧ ((∃ t, new_task m fT fC = Except.ok t) ↔
      ¬(m.role = Role.Agent ∨ m.parts = [] ∨
        ∃ p ∈ m.parts, ∃ tp, p.root = PartRoot.Text tp ∧ tp.text = "")) := by
  have hany : (m.parts.any (fun p =>
        match p.root with
        | PartRoot.Text tp => tp.text = ""
        | _ => false) = true)
      ↔ ∃ p ∈ m.parts, ∃ tp, p.root = PartRoot.Text tp ∧ tp.text = "" := by
    rw [List.any_eq_true]
    constructor
    · rintro ⟨p, hp, hmatch⟩
      refine ⟨p, hp, ?_⟩
      cases hr : p.root with
      | Text tp =>
          rw [hr] at hmatch
          exact ⟨tp, rfl, by simpa using hmatch⟩
      | File => rw [hr] at hmatch; simp at hmatch
      | Data => rw [hr] at hmatch; simp at hmatch
    · rintro ⟨p, hp, tp, hr, ht⟩
      refine ⟨p, hp, ?_⟩
      rw [hr]
      simpa using ht
  unfold new_task
  by_cases h1 : m.role = Role.Agent
  · simp [h1]
  · by_cases h2 : m.parts.isEmpty
    · have h2' : m.parts = [] := List.isEmpty_iff.mp h2
      simp [h1, h2, h2']
    · have h2' : ¬ m.parts = [] := by
        simpa [List.isEmpty_iff] using h2
      by_cases h3 : m.parts.any (fun p =>
          match p.root with
          | PartRoot.Text tp => tp.text = ""
          | _ => false) = true
      · simp only [if_neg h1, if_neg h2, if_pos h3]
        simp [h1, h2', hany.mp h3]
      · simp only [if_neg h1, if_neg h2, if_neg h3]
        have : ¬ ∃ p ∈ m.parts, ∃ tp, p.root = PartRoot.Text tp ∧ tp.text = "" :=
          fun hc => h3 (hany.mpr hc)
        simp [h1, h2', this]

/-- C1: with a request payload present, an explicit task id (respectively
context id) that differs from the id already embedded in the payload's
message makes `RequestContext.new` fail with `InvalidParams`. -/
theorem C1_identifier_mismatch (p : MessageSendParams) (task? : Option Task)
    (rel : Option (List Task)) (gT gC : IDGen) :
    (∀ tid m cid?, p.message.task_id = some m → m ≠ tid →
        ∃ s, RequestContext.new (some p) (some tid) cid? task? rel gT gC
            = Except.error (A2AError.invalidParams s))
    ∧ (∀ cid m tid?, p.message.context_id = some m → m ≠ cid →
        ∃ s, RequestContext.new (some p) tid? (some cid) task? rel gT gC
            = Except.error (A2AError.invalidParams s)) := by
  constructor
  · rintro tid m cid? hm hne
    refine ⟨"bad task id", ?_⟩
    unfold RequestContext.new resolve_task_id stamp_task_id
    simp [hm, hne, Except.bind]
  · rintro cid m tid? hm hne
    have hnew : RequestContext.new (some p) tid? (some cid) task? rel gT gC
        = (resolve_task_id gT tid?
            { request := some p, task_id := tid?, context_id := some cid,
              current_task := task?, related_tasks := rel.getD [] }).bind
          (resolve_context_id gC (some cid)) := rfl
    cases hres : resolve_task_id gT tid?
        { request := some p, task_id := tid?, context_id := some cid,
          current_task := task?, related_tasks := rel.getD [] } with
    | error e =>
        obtain ⟨s, rfl⟩ := resolve_task_id_error_invalidParams _ _ _ _ hres
        refine ⟨s, ?_⟩
        rw [hnew, hres]
        rfl
    | ok ctx₁ =>
        obtain ⟨-, -, -, hmap, -⟩ :=
          resolve_task_id_ok_preserves _ _ _ _ hres
        cases hreq₁ : ctx₁.request with
        | none => rw [hreq₁] at hmap; simp at hmap
        | some p₁ =>
            rw [hreq₁] at hmap
            simp only [Option.map_some', Option.some.injEq] at hmap
            have hm₁ : p₁.message.context_id = some m := by rw [hmap, hm]
            refine ⟨"bad context id", ?_⟩
            rw [hnew, hres]
            show resolve_context_id gC (some cid) ctx₁ = _
            unfold resolve_context_id stamp_context_id
            simp [hreq₁, hm₁, hne, Except.bind]

/-- Witness for C1: payload embedding `task_id = "A"` / `context_id = "CA"`
against explicit `"B"` / `"CB"`. -/
theorem C1_identifier_mismatch_witness :
    (∃ s, RequestContext.new (some mismatchParams) (some "B") none none none
        sampleGen sampleGen = Except.error (A2AError.invalidParams s))
    ∧ (∃ s, RequestContext.new (some mismatchParams) none (some "CB") none
        none sampleGen sampleGen
          = Except.error (A2AError.invalidParams s)) := by
  obtain ⟨ha, hb⟩ :=
    C1_identifier_mismatch mismatchParams none none sampleGen sampleGen
  exact ⟨ha "B" "A" none rfl (by decide), hb "CB" "CA" none rfl (by decide)⟩

/-- C2 counterexample: with no request payload the constructor performs no
validation at all, so an explicit `task_id = "B"` coexisting with a current
task whose id is `"A"` still constructs successfully. -/
theorem C2_no_payload_counterexample :
    RequestContext.new none (some "B") none (some sampleTaskA) none
        sampleGen sampleGen
      = Except.ok { request := none, task_id := some "B",
                    context_id := none, current_task := some sampleTaskA,
                    related_tasks := [] }
    ∧ sampleTaskA.id = "A" ∧ ("A" : String) ≠ "B" :=
  ⟨rfl, rfl, by decide⟩

/-- C2 (amended): when a request payload is present, a successful
construction with both a current task and an explicit task id (respectively
context id) forces the explicit id to equal the task's id. -/
theorem C2_explicit_id_matches_current_task (p : MessageSendParams) :
    (∀ tid cid? t rel gT gC ctx,
        RequestContext.new (some p) (some tid) cid? (some t) rel gT gC
            = Except.ok ctx → t.id = tid)
    ∧ (∀ tid? cid t rel gT gC ctx,
        RequestContext.new (some p) tid? (some cid) (some t) rel gT gC
            = Except.ok ctx → t.context_id = cid) := by
  constructor
  · rintro tid cid? t rel gT gC ctx h
    have hnew : RequestContext.new (some p) (some tid) cid? (some t) rel gT gC
        = (resolve_task_id gT (some tid)
            { request := some p, task_id := some tid, context_id := cid?,
              current_task := some t, related_tasks := rel.getD [] }).bind
          (resolve_context_id gC cid?) := rfl
    rw [hnew] at h
    cases hres : resolve_task_id gT (some tid)
        { request := some p, task_id := some tid, context_id := cid?,
          current_task := some t, related_tasks := rel.getD [] } with
    | error e => rw [hres] at h; simp [Except.bind] at h
    | ok ctx₁ =>
        have hres2 : (stamp_task_id tid
            { request := some p, task_id := some tid, context_id := cid?,
              current_task := some t, related_tasks := rel.getD [] }).bind
            (validate_task_against_current tid) = Except.ok ctx₁ := hres
        cases hst : stamp_task_id tid
            { request := some p, task_id := some tid, context_id := cid?,
              current_task := some t, related_tasks := rel.getD [] } with
        | error e => rw [hst] at hres2; simp [Except.bind] at hres2
        | ok ctx₂ =>
            rw [hst] at hres2
            simp only [Except.bind] at hres2
            obtain ⟨-, -, hcur, -, -, -⟩ :=
              stamp_task_id_ok_preserves _ _ _ hst
            obtain ⟨-, hid⟩ := validate_task_ok _ _ _ hres2
            exact hid t (by rw [hcur])
  · rintro tid? cid t rel gT gC ctx h
    have hnew : RequestContext.new (some p) tid? (some cid) (some t) rel gT gC
        = (resolve_task_id gT tid?
            { request := some p, task_id := tid?, context_id := some cid,
              current_task := some t, related_tasks := rel.getD [] }).bind
          (resolve_context_id gC (some cid)) := rfl
    rw [hnew] at h
    cases hres : resolve_task_id gT tid?
        { request := some p, task_id := tid?, context_id := some cid,
          current_task := some t, related_tasks := rel.getD [] } with
    | error e => rw [hres] at h; simp [Except.bind] at h
    | ok ctx₁ =>
        rw [hres] at h
        simp only [Except.bind] at h
        obtain ⟨-, hcur₁, -, -, -⟩ :=
          resolve_task_id_ok_preserves _ _ _ _ hres
        have h2 : (stamp_context_id cid ctx₁).bind
            (validate_context_against_current cid) = Except.ok ctx := h
        cases hst : stamp_context_id cid ctx₁ with
        | error e => rw [hst] at h2; simp [Except.bind] at h2
        | ok ctx₂ =>
            rw [hst] at h2
            simp only [Except.bind] at h2
            obtain ⟨-, -, hcur₂, -, -, -⟩ :=
              stamp_context_id_ok_preserves _ _ _ hst
            obtain ⟨-, hid⟩ := validate_context_ok _ _ _ h2
            exact hid t (by rw [hcur₂, hcur₁])

/-- Witness for the amended C2: the nil-UUID task id and context id `"c0"`
of `sampleTaskZ` are certified by two successful constructions. -/
theorem C2_explicit_id_matches_current_task_witness :
    sampleTaskZ.id = zeroUuid ∧ sampleTaskZ.context_id = "c0" := by
  obtain ⟨ha, hb⟩ := C2_explicit_id_matches_current_task sampleParams
  exact ⟨ha zeroUuid (some "c0") sampleTaskZ none sampleGen sampleGen _ rfl,
         hb (some zeroUuid) "c0" sampleTaskZ none sampleGen sampleGen _ rfl⟩

/-- C3 counterexample: with a payload carrying no embedded task id and no
current task, an explicit non-UUID task id (`"B"`) makes construction fail
with `InvalidParams` even though neither mismatch (a) nor (b) applies —
refuting "the only failure cases are the id mismatches of (a) and (b)". -/
theorem C3_non_uuid_counterexample :
    mismatchParams.message.context_id = some "CA"
    ∧ sampleParams.message.task_id = none
    ∧ RequestContext.new (some sampleParams) (some "B") (some "c1") none none
          sampleGen sampleGen
        = Except.error (A2AError.invalidParams "invalid task id format") :=
  ⟨rfl, rfl, rfl⟩

/-- C3 (amended): with a payload embedding no ids and any current task
matching the explicit ids, construction succeeds exactly when the explicit
task id parses as a UUID, stamping its canonical lowercase hyphenated form
onto the message; the explicit context id follows the same algorithm minus
the UUID-format check and is stamped verbatim. -/
theorem C3_explicit_id_stamping (p : MessageSendParams) (tid cid : String)
    (task? : Option Task) (rel : Option (List Task)) (gT gC : IDGen)
    (hmt : p.message.task_id = none) (hmc : p.message.context_id = none)
    (htask : ∀ t, task? = some t → t.id = tid ∧ t.context_id = cid) :
    (uuidParse? tid = none →
        RequestContext.new (some p) (some tid) (some cid) task? rel gT gC
          = Except.error (A2AError.invalidParams "invalid task id format"))
    ∧ (∀ u, uuidParse? tid = some u →
        RequestContext.new (some p) (some tid) (some cid) task? rel gT gC
          = Except.ok
              { request := some { p with
                  message := { p.message with
                    task_id := some (uuidToString u)
                    context_id := some cid } }
                task_id := some tid
                context_id := some cid
                current_task := task?
                related_tasks := rel.getD [] }) := by
  constructor
  · intro hu
    unfold RequestContext.new resolve_task_id stamp_task_id
    simp [hmt, hu, Except.bind]
  · rintro u hu
    cases task? with
    | none =>
        unfold RequestContext.new resolve_task_id stamp_task_id
          validate_task_against_current resolve_context_id stamp_context_id
          validate_context_against_current
        simp [hmt, hmc, hu, Except.bind]
    | some t =>
        obtain ⟨h1, h2⟩ := htask t rfl
        unfold RequestContext.new resolve_task_id stamp_task_id
          validate_task_against_current resolve_context_id stamp_context_id
          validate_context_against_current
        simp [hmt, hmc, hu, h1, h2, Except.bind]

/-- The 32 nibbles of the nil UUID. -/
def zeroNibbles : List Nat := List.replicate 32 0

/-- Witness for the amended C3: nil-UUID explicit task id, explicit context
id `"c1"`, no current task. -/
theorem C3_explicit_id_stamping_witness :
    RequestContext.new (some sampleParams) (some zeroUuid) (some "c1") none
        none sampleGen sampleGen
      = Except.ok
          { request := some { sampleParams with
              message := { sampleParams.message with
                task_id := some (uuidToString zeroNibbles)
                context_id := some "c1" } }
            task_id := some zeroUuid
            context_id := some "c1"
            current_task := none
            related_tasks := [] } :=
  (C3_explicit_id_stamping sampleParams zeroUuid "c1" none none sampleGen
    sampleGen rfl rfl (fun t ht => by cases ht)).2 zeroNibbles (by decide)

/-- C6: with a request payload present and a successful construction, an id
available from neither the explicit argument nor the message is generated by
the corresponding generator (task hint: the explicit context id or `""`;
context hint: the resolved task id or `""`), stamped onto the message, and
recorded as the resolved id; an id embedded in the message with no explicit
counterpart becomes the resolved id. -/
theorem C6_id_generation (p : MessageSendParams) (tid? cid? : Option String)
    (task? : Option Task) (rel : Option (List Task)) (gT gC : IDGen)
    (ctx : RequestContext)
    (h : RequestContext.new (some p) tid? cid? task? rel gT gC
        = Except.ok ctx) :
    (tid? = none → p.message.task_id = none →
        ctx.task_id = some (gT (IDGeneratorContext.with_context_id
            (cid?.getD "")))
        ∧ ctx.request.map (fun q => q.message.task_id) = some ctx.task_id)
    ∧ (tid? = none → ∀ m, p.message.task_id = some m →
        ctx.task_id = some m)
    ∧ (cid? = none → p.message.context_id = none →
        ctx.context_id = some (gC (IDGeneratorContext.with_task_id
            (ctx.task_id.getD "")))
        ∧ ctx.request.map (fun q => q.message.context_id)
            = some ctx.context_id)
    ∧ (cid? = none → ∀ m, p.message.context_id = some m →
        ctx.context_id = some m) := by
  have hnew : RequestContext.new (some p) tid? cid? task? rel gT gC
      = (resolve_task_id gT tid?
          { request := some p, task_id := tid?, context_id := cid?,
            current_task := task?, related_tasks := rel.getD [] }).bind
        (resolve_context_id gC cid?) := rfl
  rw [hnew] at h
  cases hres : resolve_task_id gT tid?
      { request := some p, task_id := tid?, context_id := cid?,
        current_task := task?, related_tasks := rel.getD [] } with
  | error e => rw [hres] at h; simp [Except.bind] at h
  | ok ctx₁ =>
      rw [hres] at h
      simp only [Except.bind] at h
      obtain ⟨hcid₁, -, -, hmapc₁, -⟩ :=
        resolve_task_id_ok_preserves _ _ _ _ hres
      obtain ⟨htid₂, -, -, hmapt₂, -⟩ :=
        resolve_context_id_ok_preserves _ _ _ _ h
      refine ⟨?_, ?_, ?_, ?_⟩
      · rintro rfl hm
        have hres' : ctx₁ = check_or_generate_task_id gT
            { request := some p, task_id := none, context_id := cid?,
              current_task := task?, related_tasks := rel.getD [] } := by
          unfold resolve_task_id at hres
          simpa using hres.symm
        obtain ⟨hgen1, hgen2⟩ := check_or_generate_task_id_generates gT
            { request := some p, task_id := none, context_id := cid?,
              current_task := task?, related_tasks := rel.getD [] }
            p rfl rfl hm
        rw [← hres'] at hgen1 hgen2
        refine ⟨by rw [htid₂, hgen1], ?_⟩
        rw [hmapt₂, htid₂, hgen1, hgen2]
      · rintro rfl m hm
        have hres' : ctx₁ = check_or_generate_task_id gT
            { request := some p, task_id := none, context_id := cid?,
              current_task := task?, related_tasks := rel.getD [] } := by
          unfold resolve_task_id at hres
          simpa using hres.symm
        have hadopt := check_or_generate_task_id_adopts gT
            { request := some p, task_id := none, context_id := cid?,
              current_task := task?, related_tasks := rel.getD [] }
            p m rfl hm
        rw [← hres'] at hadopt
        rw [htid₂, hadopt]
      · rintro rfl hm
        have hmc₁ : ctx₁.request.map (fun q => q.message.context_id)
            = some none := by
          rw [hmapc₁]
          simp [hm]
        cases hreq₁ : ctx₁.request with
        | none => rw [hreq₁] at hmc₁; simp at hmc₁
        | some p₁ =>
            rw [hreq₁] at hmc₁
            simp only [Option.map_some', Option.some.injEq] at hmc₁
            have hcidnone : ctx₁.context_id = none := by
              rw [hcid₁]
            have h' : ctx = check_or_generate_context_id gC ctx₁ := by
              unfold resolve_context_id at h
              simpa using h.symm
            obtain ⟨hgen1, hgen2⟩ := check_or_generate_context_id_generates
              gC ctx₁ p₁ hreq₁ hcidnone hmc₁
            rw [← h'] at hgen1 hgen2
            have htid₁ : ctx₁.task_id = ctx.task_id := htid₂.symm
            refine ⟨by rw [hgen1, htid₁], ?_⟩
            rw [hgen2, hgen1, htid₁]
      · rintro rfl m hm
        have hmc₁ : ctx₁.request.map (fun q => q.message.context_id)
            = some (some m) := by
          rw [hmapc₁]
          simp [hm]
        cases hreq₁ : ctx₁.request with
        | none => rw [hreq₁] at hmc₁; simp at hmc₁
        | some p₁ =>
            rw [hreq₁] at hmc₁
            simp only [Option.map_some', Option.some.injEq] at hmc₁
            have h' : ctx = check_or_generate_context_id gC ctx₁ := by
              unfold resolve_context_id at h
              simpa using h.symm
            have hadopt := check_or_generate_context_id_adopts gC ctx₁ p₁ m
              hreq₁ hmc₁
            rw [← h'] at hadopt
            exact hadopt

/-- The context produced by a generation-only construction over
`sampleParams` with `sampleGen` for both generators. -/
def sampleGenCtx : RequestContext :=
  { request := some
      ⟨⟨Role.User, [Part.text "Hello"], some "generated-id",
        some "generated-id"⟩, none, none⟩
    task_id := some "generated-id"
    context_id := some "generated-id"
    current_task := none
    related_tasks := [] }

/-- Witness for C6: no explicit ids and no embedded ids — both are
generated and stamped. -/
theorem C6_id_generation_witness :
    sampleGenCtx.task_id = some "generated-id"
    ∧ sampleGenCtx.request.map (fun q => q.message.task_id)
        = some sampleGenCtx.task_id
    ∧ sampleGenCtx.context_id = some "generated-id"
    ∧ sampleGenCtx.request.map (fun q => q.message.context_id)
        = some sampleGenCtx.context_id := by
  have h := C6_id_generation sampleParams none none none none sampleGen
    sampleGen sampleGenCtx rfl
  obtain ⟨h1, h2⟩ := h.1 rfl rfl
  obtain ⟨h3, h4⟩ := h.2.2.1 rfl rfl
  exact ⟨h1, h2, h3, h4⟩

/-- C8: every successful `execute` run of the two shipped executors ends
with a final `Completed` status update (preceded by a non-final `Working`
update carrying the same task/context pair), and every successful `cancel`
enqueues a final `Canceled` status update — so each run publishes a
terminal event. -/
theorem C8_executors_publish_terminal (ex : MockAgentExecutor)
    (ech : EchoAgentExecutor) (ctx : RequestContext) (now1 now2 : String)
    (q q' : EventQueueState) :
    (ex.execute ctx now1 now2 q = Except.ok q' →
      ∃ w c, q'.events = q.events
            ++ [Event.TaskStatusUpdate w, Event.TaskStatusUpdate c]
        ∧ w.final = false ∧ w.status.state = TaskState.Working
        ∧ c.final = true ∧ c.status.state = TaskState.Completed
        ∧ w.task_id = c.task_id ∧ w.context_id = c.context_id
        ∧ q'.events.getLast? = some (Event.TaskStatusUpdate c))
    ∧ (MockAgentExecutor.cancel ctx now1 q = Except.ok q' →
      ∃ u, q'.events = q.events ++ [Event.TaskStatusUpdate u]
        ∧ u.final = true ∧ u.status.state = TaskState.Canceled
        ∧ q'.events.getLast? = some (Event.TaskStatusUpdate u))
    ∧ (ech.execute ctx now1 now2 q = Except.ok q' →
      ∃ w m c, q'.events = q.events
            ++ [Event.TaskStatusUpdate w, Event.Message m,
                Event.TaskStatusUpdate c]
        ∧ w.final = false ∧ w.status.state = TaskState.Working
        ∧ c.final = true ∧ c.status.state = TaskState.Completed
        ∧ w.task_id = c.task_id ∧ w.context_id = c.context_id
        ∧ q'.events.getLast? = some (Event.TaskStatusUpdate c))
    ∧ (EchoAgentExecutor.cancel ctx now1 q = Except.ok q' →
      ∃ u, q'.events = q.events ++ [Event.TaskStatusUpdate u]
        ∧ u.final = true ∧ u.status.state = TaskState.Canceled
        ∧ q'.events.getLast? = some (Event.TaskStatusUpdate u)) := by
  refine ⟨?_, ?_, ?_, ?_⟩
  · intro h
    unfold MockAgentExecutor.execute enqueue_event at h
    by_cases hsim : ex.simulate_error
    · rw [if_pos hsim] at h
      simp at h
    · rw [if_neg hsim] at h
      by_cases hcl : q.closed
      · simp [hcl, Except.bind] at h
      · simp only [hcl, if_false, Bool.false_eq_true, Except.bind] at h
        simp only [Except.ok.injEq] at h
        subst h
        refine ⟨⟨ctx.task_id.getD "unknown", ctx.context_id.getD "unknown",
            ⟨TaskState.Working, none, some now1⟩, false, "status-update",
            none⟩,
          ⟨ctx.task_id.getD "unknown", ctx.context_id.getD "unknown",
            ⟨TaskState.Completed, none, some now2⟩, true, "status-update",
            none⟩, ?_, rfl, rfl, rfl, rfl, rfl, rfl, ?_⟩
        · simp
        · exact List.getLast?_concat _
  · intro h
    unfold MockAgentExecutor.cancel enqueue_event at h
    by_cases hcl : q.closed
    · simp [hcl, Except.bind] at h
    · simp only [hcl, if_false, Bool.false_eq_true, Except.bind] at h
      simp only [Except.ok.injEq] at h
      subst h
      refine ⟨⟨ctx.task_id.getD "unknown", ctx.context_id.getD "unknown",
          ⟨TaskState.Canceled, none, some now1⟩, true, "status-update",
          none⟩, rfl, rfl, rfl, ?_⟩
      exact List.getLast?_concat _
  · intro h
    unfold EchoAgentExecutor.execute enqueue_event at h
    by_cases hcl : q.closed
    · simp [hcl, Except.bind] at h
    · simp only [hcl, if_false, Bool.false_eq_true, Except.bind] at h
      simp only [Except.ok.injEq] at h
      subst h
      refine ⟨⟨ctx.task_id.getD "unknown", ctx.context_id.getD "unknown",
          ⟨TaskState.Working, none, some now1⟩, false, "status-update",
          none⟩,
        Message.new Role.Agent
          [Part.text (ech.prefix_text ++ ctx.get_user_input " ")],
        ⟨ctx.task_id.getD "unknown", ctx.context_id.getD "unknown",
          ⟨TaskState.Completed, none, some now2⟩, true, "status-update",
          none⟩, ?_, rfl, rfl, rfl, rfl, rfl, rfl, ?_⟩
      · simp
      · exact List.getLast?_concat _
  · intro h
    unfold EchoAgentExecutor.cancel enqueue_event at h
    by_cases hcl : q.closed
    · simp [hcl, Except.bind] at h
    · simp only [hcl, if_false, Bool.false_eq_true, Except.bind] at h
      simp only [Except.ok.injEq] at h
      subst h
      refine ⟨⟨ctx.task_id.getD "unknown", ctx.context_id.getD "unknown",
          ⟨TaskState.Canceled, none, some now1⟩, true, "status-update",
          none⟩, rfl, rfl, rfl, ?_⟩
      exact List.getLast?_concat _

/-- A context with resolved ids and the `sampleParams` payload, for running
the executors. -/
def sampleExecCtx : RequestContext :=
  { request := some sampleParams
    task_id := some "task123"
    context_id := some "ctx456"
    current_task := none
    related_tasks := [] }

/-- An empty open event queue. -/
def emptyQueue : EventQueueState := { events := [], closed := false }

/-- The queue produced by a mock `execute` on `emptyQueue`. -/
def mockRunQueue : EventQueueState :=
  ⟨[Event.TaskStatusUpdate ⟨"task123", "ctx456",
      ⟨TaskState.Working, none, some "t1"⟩, false, "status-update", none⟩,
    Event.TaskStatusUpdate ⟨"task123", "ctx456",
      ⟨TaskState.Completed, none, some "t2"⟩, true, "status-update", none⟩],
   false⟩

/-- The queue produced by a mock `cancel` on `emptyQueue`. -/
def mockCancelQueue : EventQueueState :=
  ⟨[Event.TaskStatusUpdate ⟨"task123", "ctx456",
      ⟨TaskState.Canceled, none, some "t3"⟩, true, "status-update", none⟩],
   false⟩

/-- Witness for C8: concrete successful `execute` and `cancel` runs of the
mock executor on an empty open queue. -/
theorem C8_executors_publish_terminal_witness :
    (∃ w c, mockRunQueue.events = emptyQueue.events
          ++ [Event.TaskStatusUpdate w, Event.TaskStatusUpdate c]
        ∧ c.final = true ∧ c.status.state = TaskState.Completed)
    ∧ (∃ u, mockCancelQueue.events = emptyQueue.events
          ++ [Event.TaskStatusUpdate u]
        ∧ u.final = true ∧ u.status.state = TaskState.Canceled) := by
  obtain ⟨hex, -, -, -⟩ := C8_executors_publish_terminal
    MockAgentExecutor.new EchoAgentExecutor.new sampleExecCtx "t1" "t2"
    emptyQueue mockRunQueue
  obtain ⟨w, c, h1, -, -, h4, h5, -, -, -⟩ := hex rfl
  obtain ⟨-, hcan, -, -⟩ := C8_executors_publish_terminal
    MockAgentExecutor.new EchoAgentExecutor.new sampleExecCtx "t3" "t2"
    emptyQueue mockCancelQueue
  obtain ⟨u, h1p, h2p, h3p, -⟩ := hcan rfl
  exact ⟨⟨w, c, h1, h4, h5⟩, ⟨u, h1p, h2p, h3p⟩⟩

/-- C9 (spec-modelled store): once a stored task is terminal,
`apply_status` rejects any further transition, and `create` cannot displace
the stored record either — `apply_status` being the store's only status
mutator. -/
theorem C9_apply_status_rejects_terminal (store : TaskStore)
    (task_id : String) (task : Task) (status : TaskStatus)
    (hget : TaskStore.get store task_id = some task)
    (hterm : task.status.state.is_terminal = true) :
    TaskStore.apply_status store task_id status
        = Except.error StoreError.TerminalState
    ∧ (∀ t : Task, t.id = task_id →
        TaskStore.create store t = Except.error StoreError.AlreadyExists) := by
  constructor
  · unfold TaskStore.apply_status
    simp [hget, hterm]
  · rintro t rfl
    unfold TaskStore.create
    simp [hget]

/-- A completed stored task. -/
def terminalTask : Task :=
  (Task.new "c-term" (TaskStatus.new TaskState.Completed)).with_task_id "T"

/-- A store holding only `terminalTask` under `"T"`. -/
def sampleStore : TaskStore := [("T", terminalTask)]

/-- Witness for C9: applying `Working` to the completed task `"T"` fails,
as does re-creating it. -/
theorem C9_apply_status_rejects_terminal_witness :
    TaskStore.apply_status sampleStore "T" (TaskStatus.new TaskState.Working)
        = Except.error StoreError.TerminalState
    ∧ TaskStore.create sampleStore terminalTask
        = Except.error StoreError.AlreadyExists := by
  obtain ⟨h1, h2⟩ := C9_apply_status_rejects_terminal sampleStore "T"
    terminalTask (TaskStatus.new TaskState.Working) rfl rfl
  exact ⟨h1, h2 terminalTask rfl⟩

end A2A
